import Mathlib

/-!
Verification of the LinkedIn MCP server tools.

We shallowly embed the two source files of the repository:
`linkedin_mcp_server/tools/connection.py` (the `send_connection_request`
tool) and `linkedin_mcp_server/server.py` (the `close_session` tool).

The browser is external, so every awaited page operation
(`ensure_authenticated`, `page.goto`, `page.query_selector`, clicks,
timeouts, fills) is modelled by an `Except`-valued field of an
environment `Env`: `Except.ok v` means the awaited call returned `v`,
`Except.error e` means it raised an exception described by `e`.
The tool body is a deterministic function of that environment which
returns the Python body's outcome (a result dict, or the exception that
escaped the body) together with the ordered trace of page interactions
and progress events it performed.
-/

namespace LinkedinMcp

/-- An exception value: we only ever need its human-readable description. -/
abbrev Exc := String

/-- A JSON-ish scalar value stored in a result dict. -/
inductive Value where
  | bool (b : Bool)
  | str (s : String)
deriving DecidableEq, Repr

/-- A Python dict literal as the ordered association list the code builds. -/
abbrev Dict := List (String × Value)

/-- Key lookup in a result dict (Python `d["k"]` / `"k" in d`). -/
def dictGet (d : Dict) (k : String) : Option Value :=
  match d with
  | [] => none
  | (k2, v) :: rest => if k2 = k then some v else dictGet rest k

/-- One observable action of the tool body, in execution order. -/
inductive Event where
  | progress (current total : Nat) (message : String)
  | goto (url : String)
  | query (selector : String)
  | click (selector : String)
  | waitFor (ms : Nat)
  | fill (selector : String) (text : String)
deriving DecidableEq, Repr

/-- Selector of the main Connect button on the profile page. -/
def connectMainSel : String := "button[aria-label*=\"Connect\"]"

/-- Selector of the More-actions dropdown trigger. -/
def moreSel : String := "button[aria-label*=\"More actions\"]"

/-- Selector of a Connect element inside the opened dropdown. -/
def connectDropSel : String := "[aria-label*=\"Connect\"]"

/-- Selector of the Add-a-note button in the connection modal. -/
def addNoteSel : String := "button:has-text(\"Add a note\")"

/-- Selector of the note message textarea. -/
def messageSel : String := "textarea[name=\"message\"]"

/-- Selector of the Send button in the modal. -/
def sendSel : String := "button:has-text(\"Send\"), button:has-text(\"Send now\")"

/-- Fallback selector of the primary modal action. -/
def sendInviteSel : String := "[data-control-name=\"send_invite\"]"

/-- Label standing for the connect element handle the code clicks. -/
def connectBtnLabel : String := "ConnectButton"

/-- Label standing for the send element handle the code clicks. -/
def sendBtnLabel : String := "SendButton"

/-- The error message returned when no Connect control is found. -/
def connectNotFoundMsg : String :=
  "Connect button not found. The person may already be a connection, a pending request exists, or this profile does not allow connection requests."

/-- The error message returned when no Send control is found. -/
def sendNotFoundMsg : String :=
  "Send button not found after opening connection modal."

/-- Responses of the external browser/session layer to each awaited call
of the tool body, in source order.  A `Bool` result of a query says
whether `query_selector` found an element (`none` versus a handle). -/
structure Env where
  ensureAuth : Except Exc Unit
  getBrowser : Except Exc Unit
  gotoProfile : Except Exc Unit
  qConnectMain : Except Exc Bool
  qMore : Except Exc Bool
  clickMore : Except Exc Unit
  waitMore : Except Exc Unit
  qConnectDrop : Except Exc Bool
  clickConnect : Except Exc Unit
  waitModal : Except Exc Unit
  qAddNote : Except Exc Bool
  clickAddNote : Except Exc Unit
  waitAddNote : Except Exc Unit
  qMessage : Except Exc Bool
  fillMessage : Except Exc Unit
  qSend : Except Exc Bool
  qSendInvite : Except Exc Bool
  clickSend : Except Exc Unit
deriving Repr

/-- Run one awaited call: the events `ev` describe the actions performed
up to and including the call itself; if the call raises, the body stops
with that exception, otherwise the continuation `k` runs on its value. -/
def step {α : Type} (ev : List Event) (r : Except Exc α)
    (k : α → Except Exc Dict × List Event) : Except Exc Dict × List Event :=
  match r with
  | Except.ok a => ((k a).1, ev ++ (k a).2)
  | Except.error e => (Except.error e, ev)

/-- Run one awaited `query_selector` call followed by the `if` on its
result: continue with `kt` when an element was found, with `kf` when the
lookup returned `None`, and stop when the call raised. -/
def qstep (ev : List Event) (r : Except Exc Bool)
    (kt kf : Except Exc Dict × List Event) : Except Exc Dict × List Event :=
  match r with
  | Except.ok true => (kt.1, ev ++ kt.2)
  | Except.ok false => (kf.1, ev ++ kf.2)
  | Except.error e => (Except.error e, ev)

/-- The dict literal of lines 91-99: Connect control not found. -/
def connectNotFoundDict (profile_url : String) : Dict :=
  [("success", Value.bool false),
   ("profile", Value.str profile_url),
   ("error", Value.str connectNotFoundMsg)]

/-- The dict literal of lines 150-154: Send control not found. -/
def sendNotFoundDict (profile_url : String) : Dict :=
  [("success", Value.bool false),
   ("profile", Value.str profile_url),
   ("error", Value.str sendNotFoundMsg)]

/-- The dict literal of lines 164-168: request sent; `note_included` is
the Python truthiness `bool(note)` of the local `note` at that point. -/
def successDict (profile_url : String) (note_included : Bool) : Dict :=
  [("success", Value.bool true),
   ("profile", Value.str profile_url),
   ("note_included", Value.bool note_included)]

/-- Lines 101-133 of `connection.py`: after the Connect click and the
modal wait, the optional note block.  Mirrors
`if note: note = note[:300]; ...` — the continuation receives the
(possibly truncated) value the local variable `note` holds afterwards. -/
def noteBlock (env : Env) (note : String)
    (k : String → Except Exc Dict × List Event) : Except Exc Dict × List Event :=
  if note == "" then k note
  else
    let noteT := note.take 300
    qstep [Event.query addNoteSel] env.qAddNote
      (step [Event.click addNoteSel] env.clickAddNote fun _ =>
       step [Event.waitFor 600] env.waitAddNote fun _ =>
       qstep [Event.query messageSel] env.qMessage
         (step [Event.fill messageSel noteT] env.fillMessage fun _ => k noteT)
         (k noteT))
      (k noteT)

/-- Lines 156-168 of `connection.py`: click the found Send control,
report 100/100 and return the success dict; `note_included` is
`bool(note)` on the current value of `note`. -/
def afterSendFound (env : Env) (profile_url noteF : String) :
    Except Exc Dict × List Event :=
  step [Event.click sendBtnLabel] env.clickSend fun _ =>
    (Except.ok (successDict profile_url (!(noteF == ""))),
     [Event.progress 100 100 "Connection request sent"])

/-- Lines 135-168 of `connection.py`: report 80/100, look for the Send
button, fall back to the `send_invite` control, return the not-found
dict when both lookups miss, else send. -/
def sendPhase (env : Env) (profile_url noteF : String) :
    Except Exc Dict × List Event :=
  qstep [Event.progress 80 100 "Sending connection request", Event.query sendSel]
    env.qSend
    (afterSendFound env profile_url noteF)
    (qstep [Event.query sendInviteSel] env.qSendInvite
      (afterSendFound env profile_url noteF)
      (Except.ok (sendNotFoundDict profile_url), []))

/-- Lines 110-133 followed by lines 135-156: the note block then the
send phase, as executed after the modal wait. -/
def notePhase (env : Env) (profile_url note : String) :
    Except Exc Dict × List Event :=
  noteBlock env note fun noteF => sendPhase env profile_url noteF

/-- Lines 101-168 of `connection.py`: the part after a Connect control
was found — click it, report 55/100, wait for the modal, handle the
note, then the send phase. -/
def modalPhase (env : Env) (profile_url note : String) :
    Except Exc Dict × List Event :=
  step [Event.click connectBtnLabel] env.clickConnect fun _ =>
  step [Event.progress 55 100 "Handling connection modal", Event.waitFor 1000]
      env.waitModal fun _ =>
    notePhase env profile_url note

/-- Lines 79-99 of `connection.py`: the main Connect lookup missed, so
open the More-actions dropdown (when present) and look again there;
with still no Connect control, the early not-found return fires. -/
def dropdownFallback (env : Env) (profile_url note : String) :
    Except Exc Dict × List Event :=
  qstep [Event.query moreSel] env.qMore
    (step [Event.click moreSel] env.clickMore fun _ =>
     step [Event.waitFor 800] env.waitMore fun _ =>
     qstep [Event.query connectDropSel] env.qConnectDrop
       (modalPhase env profile_url note)
       (Except.ok (connectNotFoundDict profile_url), []))
    (Except.ok (connectNotFoundDict profile_url), [])

/-- The `try:` body of `send_connection_request` (lines 51-168):
authenticate, get the browser, report 10/100, navigate, report 30/100,
then either a Connect control is found on the profile (straight to the
modal phase), or the dropdown fallback runs.  Returns the body's
outcome and the trace of performed actions. -/
def body (env : Env) (profile_url note : String) :
    Except Exc Dict × List Event :=
  step [] env.ensureAuth fun _ =>
  step [] env.getBrowser fun _ =>
  step [Event.progress 10 100 "Navigating to profile", Event.goto profile_url]
      env.gotoProfile fun _ =>
  qstep [Event.progress 30 100 "Looking for Connect button",
         Event.query connectMainSel]
    env.qConnectMain
    (modalPhase env profile_url note)
    (dropdownFallback env profile_url note)

/-- Modelled from the spec: `linkedin_mcp_server/error_handler.py` is not
under `src/`; only its import and call sites are.  Per §4.3, it maps any
raised failure to a dict of shape
`\x7bstatus: "error", message: "<toolName>: <description>"\x7d` and never
re-raises. -/
def handle_tool_error (e : Exc) (toolName : String) : Dict :=
  [("status", Value.str "error"),
   ("message", Value.str (toolName ++ ": " ++ e))]

/-- Lines 34-171 of `connection.py`: the whole tool — the `try:` body,
with any escaping exception translated by
`handle_tool_error(e, "send_connection_request")`. -/
def send_connection_request (env : Env) (profile_url : String)
    (note : String := "") : Dict × List Event :=
  match body env profile_url note with
  | (Except.ok d, tr) => (d, tr)
  | (Except.error e, tr) => (handle_tool_error e "send_connection_request", tr)

/-- The `(current, total)` pairs of the progress events of a trace. -/
def progressPairs (tr : List Event) : List (Nat × Nat) :=
  tr.filterMap fun ev =>
    match ev with
    | Event.progress c t _ => some (c, t)
    | _ => none

/-- The five milestones of `send_connection_request`, in source order. -/
def fullProg : List (Nat × Nat) :=
  [(10, 100), (30, 100), (55, 100), (80, 100), (100, 100)]

/-- Modelled from the spec: `linkedin_mcp_server/drivers/browser.py` is
not under `src/`; only its import sites are.  Per §3 and §4.1 the
process state is at most one live session; a session instance is
identified here by the id it got when its browser was launched, with
`nextId` the id the next launch would use. -/
structure BrowserState where
  session : Option Nat
  nextId : Nat
deriving DecidableEq, Repr

/-- Modelled from the spec: `get_or_create_browser` lives in the missing
`drivers/browser.py`.  Per §4.1, `getOrCreateSession()` returns the
existing live session if present; otherwise it launches a new browser
instance, stores it as the process-wide singleton, and returns it. -/
def get_or_create_browser (s : BrowserState) : Nat × BrowserState :=
  match s.session with
  | some b => (b, s)
  | none => (s.nextId, BrowserState.mk (some s.nextId) (s.nextId + 1))

/-- Modelled from the spec: `close_browser` lives in the missing
`drivers/browser.py`.  Per §4.1, `closeSession()` releases the browser
handle if one exists and clears the singleton; it is a no-op with no
session, and never throws — it logs and swallows release errors. -/
def close_browser (s : BrowserState) : Except Exc Unit × BrowserState :=
  (Except.ok (), BrowserState.mk none s.nextId)

/-- Lines 46-56 of `server.py`: how `close_session` turns the outcome of
`await close_browser()` into its result dict — the `try:` success dict,
or the `except:` error dict built from the exception text. -/
def close_session_result (r : Except Exc Unit) : Dict :=
  match r with
  | Except.ok _ =>
    [("status", Value.str "success"),
     ("message",
      Value.str "Successfully closed the browser session and cleaned up resources")]
  | Except.error e =>
    [("status", Value.str "error"),
     ("message", Value.str ("Error closing browser session: " ++ e))]

/-- Lines 43-56 of `server.py`: the `close_session` tool — run
`close_browser` on the current state and translate its outcome. -/
def close_session (s : BrowserState) : Dict × BrowserState :=
  (close_session_result (close_browser s).1, (close_browser s).2)

end LinkedinMcp

namespace LinkedinMcp

/-- An environment in which every awaited call succeeds, the main
Connect button, the Add-a-note button, the textarea and the Send button
are all found. -/
def okEnv : Env where
  ensureAuth := Except.ok ()
  getBrowser := Except.ok ()
  gotoProfile := Except.ok ()
  qConnectMain := Except.ok true
  qMore := Except.ok false
  clickMore := Except.ok ()
  waitMore := Except.ok ()
  qConnectDrop := Except.ok false
  clickConnect := Except.ok ()
  waitModal := Except.ok ()
  qAddNote := Except.ok true
  clickAddNote := Except.ok ()
  waitAddNote := Except.ok ()
  qMessage := Except.ok true
  fillMessage := Except.ok ()
  qSend := Except.ok true
  qSendInvite := Except.ok false
  clickSend := Except.ok ()

/-- `okEnv` with `ensure_authenticated` raising a sign-in failure. -/
def failAuthEnv : Env :=
  { okEnv with ensureAuth := Except.error "auth failed" }

/-- `okEnv` with no Connect control anywhere: the main lookup and the
More-actions lookup both return nothing. -/
def noConnectEnv : Env :=
  { okEnv with qConnectMain := Except.ok false, qMore := Except.ok false }

/-- `okEnv` with the Add-a-note button missing from the modal. -/
def noAddNoteEnv : Env :=
  { okEnv with qAddNote := Except.ok false }

/-- A 301-character note used to exercise truncation. -/
def longNote : String := String.mk (List.replicate 301 'a')

end LinkedinMcp

namespace LinkedinMcp

/-- A string truncation is empty only for a zero bound or an empty string. -/
theorem take_eq_empty_iff (s : String) (n : Nat) :
    s.take n = "" ↔ n = 0 ∨ s = "" := by
  rw [String.take_eq]
  constructor
  · intro h
    have h2 : (String.mk (s.data.take n)).data = ("" : String).data := by rw [h]
    simp [List.take_eq_nil_iff] at h2
    rcases h2 with h2 | h2
    · exact Or.inl h2
    · right
      cases s
      simp_all
  · intro h
    rcases h with h | h <;> subst h <;> simp

/-- Truncating to a bound at least the length is the identity. -/
theorem take_of_le (s : String) (n : Nat) (h : s.length ≤ n) : s.take n = s := by
  rw [String.take_eq]
  have h2 : s.data.take n = s.data := List.take_of_length_le h
  rw [h2]

/-- Test: the happy path produces the success dict and the full trace. -/
theorem okEnv_run :
    (send_connection_request okEnv "https://example.com/in/alice" "hi").1 =
      [("success", Value.bool true),
       ("profile", Value.str "https://example.com/in/alice"),
       ("note_included", Value.bool true)] := by
  simp [send_connection_request, body, step, qstep, dropdownFallback,
    modalPhase, notePhase, noteBlock, sendPhase, afterSendFound, successDict,
    okEnv]
  rw [take_eq_empty_iff]
  simp

/-- Truncation to 300 characters preserves Python truthiness. -/
theorem take300_beq_empty (note : String) :
    (note.take 300 == "") = (note == "") := by
  by_cases hn : note = ""
  · subst hn
    rw [String.take_eq]
    simp
  · have h1 : ¬ note.take 300 = "" := by
      rw [take_eq_empty_iff]
      simp [hn]
    simp [hn, h1]

/-- The translator wrapper returns the body's trace unchanged. -/
theorem send_trace_eq (env : Env) (p note : String) :
    (send_connection_request env p note).2 = (body env p note).2 := by
  unfold send_connection_request
  split <;> simp_all

/-- On a normal return the wrapper passes the body's dict through. -/
theorem send_result_ok (env : Env) (p note : String) (d : Dict)
    (h : (body env p note).1 = Except.ok d) :
    (send_connection_request env p note).1 = d := by
  unfold send_connection_request
  split <;> simp_all

/-- On an escaping exception the wrapper returns the translated dict. -/
theorem send_result_err (env : Env) (p note : String) (e : Exc)
    (h : (body env p note).1 = Except.error e) :
    (send_connection_request env p note).1 =
      handle_tool_error e "send_connection_request" := by
  unfold send_connection_request
  split <;> simp_all

/-- The events the send-click tail can put in its trace. -/
theorem afterSendFound_events (env : Env) (p nf : String) (ev : Event)
    (h : ev ∈ (afterSendFound env p nf).2) :
    ev = Event.click sendBtnLabel ∨
    ev = Event.progress 100 100 "Connection request sent" := by
  unfold afterSendFound step at h
  repeat' split at h
  all_goals simp_all

/-- The events the send phase can put in its trace. -/
theorem sendPhase_events (env : Env) (p nf : String) (ev : Event)
    (h : ev ∈ (sendPhase env p nf).2) :
    ev = Event.progress 80 100 "Sending connection request" ∨
    ev = Event.query sendSel ∨
    ev = Event.query sendInviteSel ∨
    ev = Event.click sendBtnLabel ∨
    ev = Event.progress 100 100 "Connection request sent" := by
  unfold sendPhase qstep at h
  repeat' split at h
  all_goals try simp only [List.mem_append, List.mem_cons,
    List.not_mem_nil, or_false, false_or] at h
  all_goals repeat' (rcases h with h | h)
  all_goals first
    | (have h2 := afterSendFound_events env p nf ev h; tauto)
    | tauto

/-- The events the note block followed by the send phase can put in its
trace: the note events happen only for a non-empty note, and the only
possible fill text is the 300-character truncation of the note. -/
theorem notePhase_events (env : Env) (p note : String) (ev : Event)
    (h : ev ∈ (notePhase env p note).2) :
    (note ≠ "" ∧
      (ev = Event.query addNoteSel ∨ ev = Event.click addNoteSel ∨
       ev = Event.waitFor 600 ∨ ev = Event.query messageSel ∨
       ev = Event.fill messageSel (note.take 300))) ∨
    ev = Event.progress 80 100 "Sending connection request" ∨
    ev = Event.query sendSel ∨
    ev = Event.query sendInviteSel ∨
    ev = Event.click sendBtnLabel ∨
    ev = Event.progress 100 100 "Connection request sent" := by
  unfold notePhase noteBlock step qstep at h
  repeat' split at h
  all_goals try simp only [beq_iff_eq, List.mem_append, List.mem_cons,
    List.not_mem_nil, or_false, false_or] at h
  all_goals simp_all only [beq_iff_eq]
  all_goals repeat' (rcases h with h | h)
  all_goals first
    | (have h2 := sendPhase_events env p _ ev h; tauto)
    | tauto

/-- The events the modal phase can put in its trace. -/
theorem modalPhase_events (env : Env) (p note : String) (ev : Event)
    (h : ev ∈ (modalPhase env p note).2) :
    ev = Event.click connectBtnLabel ∨
    ev = Event.progress 55 100 "Handling connection modal" ∨
    ev = Event.waitFor 1000 ∨
    (note ≠ "" ∧
      (ev = Event.query addNoteSel ∨ ev = Event.click addNoteSel ∨
       ev = Event.waitFor 600 ∨ ev = Event.query messageSel ∨
       ev = Event.fill messageSel (note.take 300))) ∨
    ev = Event.progress 80 100 "Sending connection request" ∨
    ev = Event.query sendSel ∨
    ev = Event.query sendInviteSel ∨
    ev = Event.click sendBtnLabel ∨
    ev = Event.progress 100 100 "Connection request sent" := by
  unfold modalPhase step at h
  repeat' split at h
  all_goals try simp only [List.mem_append, List.mem_cons,
    List.not_mem_nil, or_false, false_or] at h
  all_goals repeat' (rcases h with h | h)
  all_goals first
    | (have h2 := notePhase_events env p note ev h; tauto)
    | tauto

/-- The events the dropdown fallback can put in its trace. -/
theorem dropdownFallback_events (env : Env) (p note : String) (ev : Event)
    (h : ev ∈ (dropdownFallback env p note).2) :
    ev = Event.query moreSel ∨
    ev = Event.click moreSel ∨
    ev = Event.waitFor 800 ∨
    ev = Event.query connectDropSel ∨
    ev = Event.click connectBtnLabel ∨
    ev = Event.progress 55 100 "Handling connection modal" ∨
    ev = Event.waitFor 1000 ∨
    (note ≠ "" ∧
      (ev = Event.query addNoteSel ∨ ev = Event.click addNoteSel ∨
       ev = Event.waitFor 600 ∨ ev = Event.query messageSel ∨
       ev = Event.fill messageSel (note.take 300))) ∨
    ev = Event.progress 80 100 "Sending connection request" ∨
    ev = Event.query sendSel ∨
    ev = Event.query sendInviteSel ∨
    ev = Event.click sendBtnLabel ∨
    ev = Event.progress 100 100 "Connection request sent" := by
  unfold dropdownFallback step qstep at h
  repeat' split at h
  all_goals try simp only [List.mem_append, List.mem_cons,
    List.not_mem_nil, or_false, false_or] at h
  all_goals repeat' (rcases h with h | h)
  all_goals first
    | (have h2 := modalPhase_events env p note ev h; tauto)
    | tauto

set_option maxHeartbeats 3000000 in
/-- Every event the body of `send_connection_request` can ever put in
its trace, in particular: the only possible fill into the message
textarea is the 300-character truncation of the note argument, and no
note event at all is possible for the empty note. -/
theorem body_events (env : Env) (p note : String) (ev : Event)
    (h : ev ∈ (body env p note).2) :
    ev = Event.progress 10 100 "Navigating to profile" ∨
    ev = Event.goto p ∨
    ev = Event.progress 30 100 "Looking for Connect button" ∨
    ev = Event.query connectMainSel ∨
    ev = Event.query moreSel ∨
    ev = Event.click moreSel ∨
    ev = Event.waitFor 800 ∨
    ev = Event.query connectDropSel ∨
    ev = Event.click connectBtnLabel ∨
    ev = Event.progress 55 100 "Handling connection modal" ∨
    ev = Event.waitFor 1000 ∨
    (note ≠ "" ∧
      (ev = Event.query addNoteSel ∨ ev = Event.click addNoteSel ∨
       ev = Event.waitFor 600 ∨ ev = Event.query messageSel ∨
       ev = Event.fill messageSel (note.take 300))) ∨
    ev = Event.progress 80 100 "Sending connection request" ∨
    ev = Event.query sendSel ∨
    ev = Event.query sendInviteSel ∨
    ev = Event.click sendBtnLabel ∨
    ev = Event.progress 100 100 "Connection request sent" := by
  unfold body step qstep at h
  repeat' split at h
  all_goals try simp only [List.mem_append, List.mem_cons,
    List.not_mem_nil, or_false, false_or] at h
  all_goals repeat' (rcases h with h | h)
  all_goals first
    | (have h2 := modalPhase_events env p note ev h; tauto)
    | (have h2 := dropdownFallback_events env p note ev h; tauto)
    | tauto

@[simp]
theorem progressPairs_nil : progressPairs [] = [] := rfl

@[simp]
theorem progressPairs_cons_progress (c t : Nat) (m : String) (tr : List Event) :
    progressPairs (Event.progress c t m :: tr) = (c, t) :: progressPairs tr :=
  rfl

@[simp]
theorem progressPairs_cons_goto (u : String) (tr : List Event) :
    progressPairs (Event.goto u :: tr) = progressPairs tr := rfl

@[simp]
theorem progressPairs_cons_query (s : String) (tr : List Event) :
    progressPairs (Event.query s :: tr) = progressPairs tr := rfl

@[simp]
theorem progressPairs_cons_click (s : String) (tr : List Event) :
    progressPairs (Event.click s :: tr) = progressPairs tr := rfl

@[simp]
theorem progressPairs_cons_waitFor (n : Nat) (tr : List Event) :
    progressPairs (Event.waitFor n :: tr) = progressPairs tr := rfl

@[simp]
theorem progressPairs_cons_fill (s t : String) (tr : List Event) :
    progressPairs (Event.fill s t :: tr) = progressPairs tr := rfl

@[simp]
theorem progressPairs_append (l1 l2 : List Event) :
    progressPairs (l1 ++ l2) = progressPairs l1 ++ progressPairs l2 := by
  simp [progressPairs]

/-- Outcomes of the send-click tail: the click raises and no progress is
reported, or the success dict is returned after a 100/100 report. -/
theorem afterSendFound_cases (env : Env) (p nf : String) :
    (∃ e, (afterSendFound env p nf).1 = Except.error e ∧
      progressPairs (afterSendFound env p nf).2 = []) ∨
    ((afterSendFound env p nf).1 = Except.ok (successDict p (!(nf == ""))) ∧
      progressPairs (afterSendFound env p nf).2 = [(100, 100)]) := by
  unfold afterSendFound step
  repeat' split
  all_goals simp_all

/-- Outcomes of the send phase: an exception after the 80/100 report, the
send-not-found dict, or success culminating in 100/100. -/
theorem sendPhase_cases (env : Env) (p nf : String) :
    (∃ e, (sendPhase env p nf).1 = Except.error e ∧
      progressPairs (sendPhase env p nf).2 = [(80, 100)]) ∨
    ((sendPhase env p nf).1 = Except.ok (sendNotFoundDict p) ∧
      progressPairs (sendPhase env p nf).2 = [(80, 100)]) ∨
    ((sendPhase env p nf).1 = Except.ok (successDict p (!(nf == ""))) ∧
      progressPairs (sendPhase env p nf).2 = [(80, 100), (100, 100)]) := by
  have ha := afterSendFound_cases env p nf
  unfold sendPhase qstep
  repeat' split
  all_goals rcases ha with ⟨e, ha1, ha2⟩ | ⟨ha1, ha2⟩
  all_goals simp_all

/-- Outcomes of the note block followed by the send phase: the note
block itself reports no progress, and the note flag of a success is the
truthiness of the original note argument. -/
theorem notePhase_cases (env : Env) (p note : String) :
    (∃ e, (notePhase env p note).1 = Except.error e ∧
      (progressPairs (notePhase env p note).2 = [] ∨
       progressPairs (notePhase env p note).2 = [(80, 100)])) ∨
    ((notePhase env p note).1 = Except.ok (sendNotFoundDict p) ∧
      progressPairs (notePhase env p note).2 = [(80, 100)]) ∨
    ((notePhase env p note).1 = Except.ok (successDict p (!(note == ""))) ∧
      progressPairs (notePhase env p note).2 = [(80, 100), (100, 100)]) := by
  have hs := sendPhase_cases env p note
  have ht := sendPhase_cases env p (note.take 300)
  unfold notePhase noteBlock step qstep
  repeat' split
  all_goals rcases hs with ⟨e, hs1, hs2⟩ | ⟨hs1, hs2⟩ | ⟨hs1, hs2⟩
  all_goals rcases ht with ⟨e2, ht1, ht2⟩ | ⟨ht1, ht2⟩ | ⟨ht1, ht2⟩
  all_goals simp_all [take300_beq_empty]

/-- Outcomes of the modal phase. -/
theorem modalPhase_cases (env : Env) (p note : String) :
    (∃ e, (modalPhase env p note).1 = Except.error e ∧
      (progressPairs (modalPhase env p note).2 = [] ∨
       progressPairs (modalPhase env p note).2 = [(55, 100)] ∨
       progressPairs (modalPhase env p note).2 = [(55, 100), (80, 100)])) ∨
    ((modalPhase env p note).1 = Except.ok (sendNotFoundDict p) ∧
      progressPairs (modalPhase env p note).2 = [(55, 100), (80, 100)]) ∨
    ((modalPhase env p note).1 = Except.ok (successDict p (!(note == ""))) ∧
      progressPairs (modalPhase env p note).2 =
        [(55, 100), (80, 100), (100, 100)]) := by
  have hn := notePhase_cases env p note
  unfold modalPhase step
  repeat' split
  all_goals rcases hn with ⟨e, hn1, hn2 | hn2⟩ | ⟨hn1, hn2⟩ | ⟨hn1, hn2⟩
  all_goals simp_all

/-- Outcomes of the dropdown fallback: it reports no progress of its
own, and may additionally end with the connect-not-found dict. -/
theorem dropdownFallback_cases (env : Env) (p note : String) :
    (∃ e, (dropdownFallback env p note).1 = Except.error e ∧
      (progressPairs (dropdownFallback env p note).2 = [] ∨
       progressPairs (dropdownFallback env p note).2 = [(55, 100)] ∨
       progressPairs (dropdownFallback env p note).2 =
         [(55, 100), (80, 100)])) ∨
    ((dropdownFallback env p note).1 = Except.ok (connectNotFoundDict p) ∧
      progressPairs (dropdownFallback env p note).2 = []) ∨
    ((dropdownFallback env p note).1 = Except.ok (sendNotFoundDict p) ∧
      progressPairs (dropdownFallback env p note).2 =
        [(55, 100), (80, 100)]) ∨
    ((dropdownFallback env p note).1 = Except.ok (successDict p (!(note == ""))) ∧
      progressPairs (dropdownFallback env p note).2 =
        [(55, 100), (80, 100), (100, 100)]) := by
  have hm := modalPhase_cases env p note
  unfold dropdownFallback step qstep
  repeat' split
  all_goals rcases hm with ⟨e, hm1, hm2 | hm2 | hm2⟩ | ⟨hm1, hm2⟩ | ⟨hm1, hm2⟩
  all_goals simp_all

/-- The master outcome lemma of the tool body: the progress pairs are
always one of the prefixes of the five milestones, an exception leaves a
strict prefix reaching at most 80, either not-found dict leaves its
documented prefix, and success reaches exactly the full sequence with
the note flag equal to the truthiness of the note argument. -/
theorem body_cases (env : Env) (p note : String) :
    (∃ e, (body env p note).1 = Except.error e ∧
      (progressPairs (body env p note).2 = [] ∨
       progressPairs (body env p note).2 = [(10, 100)] ∨
       progressPairs (body env p note).2 = [(10, 100), (30, 100)] ∨
       progressPairs (body env p note).2 = [(10, 100), (30, 100), (55, 100)] ∨
       progressPairs (body env p note).2 =
         [(10, 100), (30, 100), (55, 100), (80, 100)])) ∨
    ((body env p note).1 = Except.ok (connectNotFoundDict p) ∧
      progressPairs (body env p note).2 = [(10, 100), (30, 100)]) ∨
    ((body env p note).1 = Except.ok (sendNotFoundDict p) ∧
      progressPairs (body env p note).2 =
        [(10, 100), (30, 100), (55, 100), (80, 100)]) ∨
    ((body env p note).1 = Except.ok (successDict p (!(note == ""))) ∧
      progressPairs (body env p note).2 = fullProg) := by
  have hm := modalPhase_cases env p note
  have hd := dropdownFallback_cases env p note
  unfold body step qstep
  repeat' split
  all_goals rcases hm with ⟨e, hm1, hm2 | hm2 | hm2⟩ | ⟨hm1, hm2⟩ | ⟨hm1, hm2⟩
  all_goals rcases hd with
    ⟨e2, hd1, hd2 | hd2 | hd2⟩ | ⟨hd1, hd2⟩ | ⟨hd1, hd2⟩ | ⟨hd1, hd2⟩
  all_goals simp_all [fullProg]

/-- A string with a non-empty prefix is non-empty. -/
theorem append_ne_empty (a b : String) (h : a ≠ "") : a ++ b ≠ "" := by
  intro hab
  apply h
  have h1 : (a ++ b).length = 0 := by rw [hab]; rfl
  rw [String.length_append] at h1
  have h2 : a.length = 0 := by omega
  cases a with
  | mk d =>
    cases d with
    | nil => rfl
    | cons c cs => simp [String.length] at h2

/-- Claim C1: any note text filled into the message textarea by
`send_connection_request` is exactly the 300-character truncation of
the supplied note — the first 300 characters when the note is longer
than 300 characters, and the unchanged note when it is at most 300. -/
theorem C1_note_truncation (env : Env) (p note text : String)
    (h : Event.fill messageSel text ∈ (send_connection_request env p note).2) :
    (300 < note.length → text = note.take 300) ∧
    (note.length ≤ 300 → text = note) := by
  rw [send_trace_eq] at h
  have hb := body_events env p note (Event.fill messageSel text) h
  have ht : text = note.take 300 := by
    rcases hb with
      h1|h1|h1|h1|h1|h1|h1|h1|h1|h1|h1|⟨hn, h1|h1|h1|h1|h1⟩|h1|h1|h1|h1|h1 <;>
      simp_all
  refine ⟨fun _ => ht, fun hle => ?_⟩
  rw [ht, take_of_le note 300 hle]

/-- Witness for C1: a 301-character note on the happy-path environment;
the fill event occurs and its text is the truncation. -/
theorem C1_note_truncation_witness :
    Event.fill messageSel (longNote.take 300) ∈
      (send_connection_request okEnv "https://example.com/in/alice" longNote).2 ∧
    ((300 < longNote.length → longNote.take 300 = longNote.take 300) ∧
     (longNote.length ≤ 300 → longNote.take 300 = longNote)) := by
  have hne : (longNote == "") = false := by decide
  have hm : Event.fill messageSel (longNote.take 300) ∈
      (send_connection_request okEnv "https://example.com/in/alice" longNote).2 := by
    simp [send_connection_request, body, modalPhase, notePhase, noteBlock,
      sendPhase, afterSendFound, step, qstep, okEnv, hne]
  exact ⟨hm, C1_note_truncation okEnv "https://example.com/in/alice" longNote
    (longNote.take 300) hm⟩

/-- Claim C2: whatever exception escapes the body of
`send_connection_request`, the tool does not re-raise: it returns
exactly `handle_tool_error` applied to that exception and the tool
name, which is a well-formed error dict with a non-empty message. -/
theorem C2_exceptions_translated (env : Env) (p note : String) (e : Exc)
    (h : (body env p note).1 = Except.error e) :
    (send_connection_request env p note).1 =
      handle_tool_error e "send_connection_request" ∧
    dictGet (send_connection_request env p note).1 "status" =
      some (Value.str "error") ∧
    (∃ m, dictGet (send_connection_request env p note).1 "message" =
      some (Value.str m) ∧ m ≠ "") := by
  have h1 := send_result_err env p note e h
  refine ⟨h1, ?_, ?_⟩
  · rw [h1]
    simp [handle_tool_error, dictGet]
  · rw [h1]
    refine ⟨"send_connection_request" ++ ": " ++ e, ?_, ?_⟩
    · simp [handle_tool_error, dictGet]
    · exact append_ne_empty _ e (by simp)

/-- Witness for C2: the sign-in failure environment — the body raises
and the tool returns the translated dict. -/
theorem C2_exceptions_translated_witness :
    (body failAuthEnv "https://example.com/in/alice" "").1 =
      Except.error "auth failed" ∧
    (send_connection_request failAuthEnv "https://example.com/in/alice" "").1 =
      handle_tool_error "auth failed" "send_connection_request" := by
  have h : (body failAuthEnv "https://example.com/in/alice" "").1 =
      Except.error "auth failed" := rfl
  exact ⟨h, (C2_exceptions_translated failAuthEnv "https://example.com/in/alice"
    "" "auth failed" h).1⟩

/-- Claim C7: `ensure_authenticated` runs before any other action; when
it raises, the trace is empty — no navigation, no progress event — and
the returned dict is the translator's output on that very exception. -/
theorem C7_auth_first (env : Env) (p note : String) (e : Exc)
    (h : env.ensureAuth = Except.error e) :
    (send_connection_request env p note).2 = [] ∧
    (∀ u, ¬ Event.goto u ∈ (send_connection_request env p note).2) ∧
    (∀ c t m, ¬ Event.progress c t m ∈ (send_connection_request env p note).2) ∧
    (send_connection_request env p note).1 =
      handle_tool_error e "send_connection_request" := by
  have hb : body env p note = (Except.error e, []) := by
    unfold body step
    rw [h]
  have htr := send_trace_eq env p note
  rw [hb] at htr
  have hres := send_result_err env p note e (by rw [hb])
  refine ⟨htr, ?_, ?_, hres⟩
  · intro u
    rw [htr]
    simp
  · intro c t m
    rw [htr]
    simp

/-- Witness for C7: the sign-in failure environment produces an empty
trace. -/
theorem C7_auth_first_witness :
    failAuthEnv.ensureAuth = Except.error "auth failed" ∧
    (send_connection_request failAuthEnv "https://example.com/in/bob" "hi").2 =
      [] :=
  ⟨rfl, (C7_auth_first failAuthEnv "https://example.com/in/bob" "hi"
    "auth failed" rfl).1⟩

/-- Claim C3: with no Connect control on the profile page and none
found through the More-actions dropdown either, the tool returns the
not-found failure dict — success false, the original profile URL and a
non-empty error string — and the body raises nothing. -/
theorem C3_connect_not_found (env : Env) (p note : String)
    (hAuth : env.ensureAuth = Except.ok ())
    (hBrowser : env.getBrowser = Except.ok ())
    (hGoto : env.gotoProfile = Except.ok ())
    (hMain : env.qConnectMain = Except.ok false)
    (hFall : env.qMore = Except.ok false ∨
      (env.qMore = Except.ok true ∧ env.clickMore = Except.ok () ∧
       env.waitMore = Except.ok () ∧ env.qConnectDrop = Except.ok false)) :
    (body env p note).1 = Except.ok (connectNotFoundDict p) ∧
    (send_connection_request env p note).1 = connectNotFoundDict p ∧
    dictGet (connectNotFoundDict p) "success" = some (Value.bool false) ∧
    dictGet (connectNotFoundDict p) "profile" = some (Value.str p) ∧
    dictGet (connectNotFoundDict p) "error" =
      some (Value.str connectNotFoundMsg) ∧
    connectNotFoundMsg ≠ "" := by
  have h1 : (body env p note).1 = Except.ok (connectNotFoundDict p) := by
    unfold body dropdownFallback step qstep
    rcases hFall with hm | ⟨hm, hc, hw, hd⟩
    · simp [hAuth, hBrowser, hGoto, hMain, hm]
    · simp [hAuth, hBrowser, hGoto, hMain, hm, hc, hw, hd]
  refine ⟨h1, send_result_ok env p note _ h1, ?_, ?_, ?_, ?_⟩ <;>
    simp [connectNotFoundDict, dictGet, connectNotFoundMsg]

/-- Witness for C3: the environment with a missing Connect control and
an empty More-actions dropdown lookup. -/
theorem C3_connect_not_found_witness :
    noConnectEnv.ensureAuth = Except.ok () ∧
    noConnectEnv.qConnectMain = Except.ok false ∧
    noConnectEnv.qMore = Except.ok false ∧
    (send_connection_request noConnectEnv "https://example.com/in/carol" "").1 =
      connectNotFoundDict "https://example.com/in/carol" :=
  ⟨rfl, rfl, rfl,
   (C3_connect_not_found noConnectEnv "https://example.com/in/carol" "" rfl rfl
     rfl rfl (Or.inl rfl)).2.1⟩

/-- Claim C8: repeated `get_or_create_browser` without an intervening
close returns the same session instance and leaves the state unchanged,
so the second and every later call reuses the live singleton. -/
theorem C8_session_reuse (s : BrowserState) :
    (get_or_create_browser (get_or_create_browser s).2).1 =
      (get_or_create_browser s).1 ∧
    (get_or_create_browser (get_or_create_browser s).2).2 =
      (get_or_create_browser s).2 ∧
    (get_or_create_browser s).2.session = some (get_or_create_browser s).1 := by
  cases h : s.session <;> simp [get_or_create_browser, h]

/-- Claim C4: `close_session` always returns a dict whose status is
"success" or "error" with a non-empty message, for any outcome of the
underlying close; and on the spec-modelled never-throwing
`close_browser` the status is "success" on every state — with no prior
session and on a second call in a row alike. -/
theorem C4_close_session_robust (r : Except Exc Unit) (s : BrowserState) :
    (dictGet (close_session_result r) "status" = some (Value.str "success") ∨
     dictGet (close_session_result r) "status" = some (Value.str "error")) ∧
    (∃ m, dictGet (close_session_result r) "message" = some (Value.str m) ∧
      m ≠ "") ∧
    dictGet (close_session (BrowserState.mk none 0)).1 "status" =
      some (Value.str "success") ∧
    dictGet (close_session s).1 "status" = some (Value.str "success") ∧
    dictGet (close_session (close_session s).2).1 "status" =
      some (Value.str "success") := by
  refine ⟨?_, ?_, ?_, ?_, ?_⟩
  · cases r <;> simp [close_session_result, dictGet]
  · cases r with
    | ok u =>
      exact ⟨"Successfully closed the browser session and cleaned up resources",
        by simp [close_session_result, dictGet], by simp⟩
    | error e =>
      exact ⟨"Error closing browser session: " ++ e,
        by simp [close_session_result, dictGet],
        append_ne_empty _ e (by simp)⟩
  · simp [close_session, close_browser, close_session_result, dictGet]
  · simp [close_session, close_browser, close_session_result, dictGet]
  · simp [close_session, close_browser, close_session_result, dictGet]

/-- Counterexample for C5 as stated: on the sign-in failure environment
the tool returns the translator's dict, which carries neither a
`success` nor a `profile` key, so not every return value has the
declared shape. -/
theorem C5_result_shape_counterexample :
    dictGet (send_connection_request failAuthEnv
      "https://example.com/in/alice" "").1 "profile" = none ∧
    dictGet (send_connection_request failAuthEnv
      "https://example.com/in/alice" "").1 "success" = none := by
  have h : (send_connection_request failAuthEnv
      "https://example.com/in/alice" "").1 =
      handle_tool_error "auth failed" "send_connection_request" :=
    send_result_err failAuthEnv "https://example.com/in/alice" "" "auth failed"
      rfl
  rw [h]
  constructor <;> simp [handle_tool_error, dictGet]

/-- Claim C5 (amended): on every non-exception return the dict has the
declared shape — a boolean `success`, `profile` equal to the argument,
a non-empty `error` string when unsuccessful and a boolean
`note_included` when successful; on the exception path the translator's
`status`/`message` dict is returned instead, without `profile` or
`success` keys. -/
theorem C5_result_shape (env : Env) (p note : String) :
    ((body env p note).1 =
        Except.ok (send_connection_request env p note).1 ∧
      dictGet (send_connection_request env p note).1 "success" =
        some (Value.bool true) ∧
      dictGet (send_connection_request env p note).1 "profile" =
        some (Value.str p) ∧
      (∃ b, dictGet (send_connection_request env p note).1 "note_included" =
        some (Value.bool b))) ∨
    ((body env p note).1 =
        Except.ok (send_connection_request env p note).1 ∧
      dictGet (send_connection_request env p note).1 "success" =
        some (Value.bool false) ∧
      dictGet (send_connection_request env p note).1 "profile" =
        some (Value.str p) ∧
      (∃ m, dictGet (send_connection_request env p note).1 "error" =
        some (Value.str m) ∧ m ≠ "")) ∨
    ((∃ e, (body env p note).1 = Except.error e) ∧
      dictGet (send_connection_request env p note).1 "status" =
        some (Value.str "error") ∧
      (∃ m, dictGet (send_connection_request env p note).1 "message" =
        some (Value.str m) ∧ m ≠ "") ∧
      dictGet (send_connection_request env p note).1 "profile" = none ∧
      dictGet (send_connection_request env p note).1 "success" = none) := by
  rcases body_cases env p note with ⟨e, h1, h2⟩ | ⟨h1, h2⟩ | ⟨h1, h2⟩ | ⟨h1, h2⟩
  · right
    right
    have hr := send_result_err env p note e h1
    rw [hr]
    refine ⟨⟨e, h1⟩, by simp [handle_tool_error, dictGet],
      ⟨"send_connection_request" ++ ": " ++ e,
        by simp [handle_tool_error, dictGet],
        append_ne_empty _ e (by simp)⟩,
      by simp [handle_tool_error, dictGet],
      by simp [handle_tool_error, dictGet]⟩
  · right
    left
    have hr := send_result_ok env p note _ h1
    rw [hr]
    exact ⟨h1, by simp [connectNotFoundDict, dictGet],
      by simp [connectNotFoundDict, dictGet],
      ⟨connectNotFoundMsg, by simp [connectNotFoundDict, dictGet],
        by simp [connectNotFoundMsg]⟩⟩
  · right
    left
    have hr := send_result_ok env p note _ h1
    rw [hr]
    exact ⟨h1, by simp [sendNotFoundDict, dictGet],
      by simp [sendNotFoundDict, dictGet],
      ⟨sendNotFoundMsg, by simp [sendNotFoundDict, dictGet],
        by simp [sendNotFoundMsg]⟩⟩
  · left
    have hr := send_result_ok env p note _ h1
    rw [hr]
    exact ⟨h1, by simp [successDict, dictGet],
      by simp [successDict, dictGet],
      ⟨!(note == ""), by simp [successDict, dictGet]⟩⟩

/-- Claim C6: within one invocation the progress events have
non-decreasing current values, every event reports total 100 with
current at most 100, and an invocation returning success reports
100/100 as its final progress event. -/
theorem C6_progress_monotone (env : Env) (p note : String) :
    List.Chain' (fun a b => a.1 ≤ b.1)
      (progressPairs (send_connection_request env p note).2) ∧
    (∀ c t m, Event.progress c t m ∈ (send_connection_request env p note).2 →
      t = 100 ∧ c ≤ 100) ∧
    (dictGet (send_connection_request env p note).1 "success" =
        some (Value.bool true) →
      (progressPairs (send_connection_request env p note).2).getLast? =
        some (100, 100)) := by
  have htr := send_trace_eq env p note
  refine ⟨?_, ?_, ?_⟩
  · rw [htr]
    rcases body_cases env p note with
      ⟨e, h1, h2 | h2 | h2 | h2 | h2⟩ | ⟨h1, h2⟩ | ⟨h1, h2⟩ | ⟨h1, h2⟩ <;>
      rw [h2] <;> simp [List.chain'_cons, fullProg]
  · intro c t m hm
    rw [htr] at hm
    have hb := body_events env p note (Event.progress c t m) hm
    rcases hb with
      h1|h1|h1|h1|h1|h1|h1|h1|h1|h1|h1|⟨hn, h1|h1|h1|h1|h1⟩|h1|h1|h1|h1|h1 <;>
      simp_all
  · intro hsucc
    rw [htr]
    rcases body_cases env p note with
      ⟨e, h1, h2⟩ | ⟨h1, h2⟩ | ⟨h1, h2⟩ | ⟨h1, h2⟩
    · have hr := send_result_err env p note e h1
      rw [hr] at hsucc
      simp [handle_tool_error, dictGet] at hsucc
    · have hr := send_result_ok env p note _ h1
      rw [hr] at hsucc
      simp [connectNotFoundDict, dictGet] at hsucc
    · have hr := send_result_ok env p note _ h1
      rw [hr] at hsucc
      simp [sendNotFoundDict, dictGet] at hsucc
    · rw [h2]
      simp [fullProg]

/-- Claim C9: on a path where the Add-a-note button is missing, a
non-empty note is never filled anywhere, yet the success dict still
reports `note_included` true — the flag reflects only that a non-empty
note argument was passed. -/
theorem C9_note_included_reflects_argument (env : Env) (p note : String)
    (hnote : note ≠ "")
    (h1 : env.ensureAuth = Except.ok ())
    (h2 : env.getBrowser = Except.ok ())
    (h3 : env.gotoProfile = Except.ok ())
    (h4 : env.qConnectMain = Except.ok true)
    (h5 : env.clickConnect = Except.ok ())
    (h6 : env.waitModal = Except.ok ())
    (h7 : env.qAddNote = Except.ok false)
    (h8 : env.qSend = Except.ok true)
    (h9 : env.clickSend = Except.ok ()) :
    (send_connection_request env p note).1 = successDict p true ∧
    dictGet (send_connection_request env p note).1 "note_included" =
      some (Value.bool true) ∧
    (∀ sel t, ¬ Event.fill sel t ∈ (send_connection_request env p note).2) := by
  have hb : (note == "") = false := by simp [hnote]
  have hbody : body env p note =
      (Except.ok (successDict p true),
       [Event.progress 10 100 "Navigating to profile", Event.goto p,
        Event.progress 30 100 "Looking for Connect button",
        Event.query connectMainSel, Event.click connectBtnLabel,
        Event.progress 55 100 "Handling connection modal", Event.waitFor 1000,
        Event.query addNoteSel,
        Event.progress 80 100 "Sending connection request",
        Event.query sendSel, Event.click sendBtnLabel,
        Event.progress 100 100 "Connection request sent"]) := by
    unfold body modalPhase notePhase noteBlock sendPhase afterSendFound step
      qstep
    simp [h1, h2, h3, h4, h5, h6, h7, h8, h9, hb, take300_beq_empty]
  have hres : (send_connection_request env p note).1 = successDict p true :=
    send_result_ok env p note _ (by rw [hbody])
  have htr := send_trace_eq env p note
  rw [hbody] at htr
  refine ⟨hres, ?_, ?_⟩
  · rw [hres]
    simp [successDict, dictGet]
  · intro sel t
    rw [htr]
    simp

/-- Witness for C9: the happy-path environment with a missing
Add-a-note button and the note "hello". -/
theorem C9_note_included_reflects_argument_witness :
    ("hello" : String) ≠ "" ∧
    noAddNoteEnv.qAddNote = Except.ok false ∧
    (send_connection_request noAddNoteEnv "https://example.com/in/dave"
      "hello").1 = successDict "https://example.com/in/dave" true :=
  ⟨by simp, rfl,
   (C9_note_included_reflects_argument noAddNoteEnv
     "https://example.com/in/dave" "hello" (by simp) rfl rfl rfl rfl rfl rfl
     rfl rfl rfl).1⟩

/-- Claim C10: with the default empty note the whole note-handling
sequence is skipped on every path — no fill, no Add-a-note lookup and
no Add-a-note click ever happen — and any successful result reports
`note_included` false. -/
theorem C10_empty_note_skips_note_block (env : Env) (p : String) :
    (∀ sel t, ¬ Event.fill sel t ∈ (send_connection_request env p "").2) ∧
    (¬ Event.query addNoteSel ∈ (send_connection_request env p "").2) ∧
    (¬ Event.click addNoteSel ∈ (send_connection_request env p "").2) ∧
    (∀ v, dictGet (send_connection_request env p "").1 "note_included" =
        some v → v = Value.bool false) := by
  have htr := send_trace_eq env p ""
  refine ⟨?_, ?_, ?_, ?_⟩
  · intro sel t hm
    rw [htr] at hm
    have hb := body_events env p "" (Event.fill sel t) hm
    rcases hb with
      h1|h1|h1|h1|h1|h1|h1|h1|h1|h1|h1|⟨hn, h1|h1|h1|h1|h1⟩|h1|h1|h1|h1|h1 <;>
      simp_all
  · intro hm
    rw [htr] at hm
    have hb := body_events env p "" (Event.query addNoteSel) hm
    rcases hb with
      h1|h1|h1|h1|h1|h1|h1|h1|h1|h1|h1|⟨hn, h1|h1|h1|h1|h1⟩|h1|h1|h1|h1|h1 <;>
      simp_all [addNoteSel, connectMainSel, moreSel, connectDropSel, sendSel,
        sendInviteSel]
  · intro hm
    rw [htr] at hm
    have hb := body_events env p "" (Event.click addNoteSel) hm
    rcases hb with
      h1|h1|h1|h1|h1|h1|h1|h1|h1|h1|h1|⟨hn, h1|h1|h1|h1|h1⟩|h1|h1|h1|h1|h1 <;>
      simp_all [addNoteSel, moreSel, connectBtnLabel, sendBtnLabel]
  · intro v hv
    rcases body_cases env p "" with
      ⟨e, h1, h2⟩ | ⟨h1, h2⟩ | ⟨h1, h2⟩ | ⟨h1, h2⟩
    · have hr := send_result_err env p "" e h1
      rw [hr] at hv
      simp [handle_tool_error, dictGet] at hv
    · have hr := send_result_ok env p "" _ h1
      rw [hr] at hv
      simp [connectNotFoundDict, dictGet] at hv
    · have hr := send_result_ok env p "" _ h1
      rw [hr] at hv
      simp [sendNotFoundDict, dictGet] at hv
    · have hr := send_result_ok env p "" _ h1
      rw [hr] at hv
      simp [successDict, dictGet] at hv
      exact hv.symm

end LinkedinMcp
